import Mathlib

/-!
Shallow embedding of the browser front end of the `managment` repository:
the axios-based `ApiClient` (token lifecycle, request/response interceptors),
the `App` form handlers (`handleFormError`, `handleCreateTask` tag parsing),
the `debounce` utility and the `storage` wrapper from `utils.ts`.
Machine-checked statements about these embeddings follow the definitions.
-/

namespace Managment

/-! JavaScript primitives: truthiness of nullable strings, and the `a || b`
short-circuit operator as it acts on `string | null` values. -/

/-- Truthiness of a JavaScript `string | null` value: `null` and the empty
string are falsy, every other string is truthy. -/
def strTruthy : Option String → Bool
  | none => false
  | some s => s != ""

/-- JavaScript `a || b` on `string | null` values: yields `a` when `a` is
truthy, otherwise `b`. -/
def jsOr (a b : Option String) : Option String :=
  if strTruthy a then a else b

/-! State of the `ApiClient` singleton from `app/static/src/api.ts`:
the in-memory `token` field (`string | null`), the persistent
`localStorage` slot under the key `auth_token` (`none` models an absent
key), and the current `window.location.href` target. -/

/-- State of `ApiClient` plus the browser facilities it mutates: the private
`token` field, the `localStorage` value stored under `auth_token`, and
`window.location.href`. -/
structure ClientState where
  token : Option String
  store : Option String
  location : String

/-- The `getToken` method: `this.token || localStorage.getItem('auth_token')`. -/
def ClientState.getToken (st : ClientState) : Option String :=
  jsOr st.token st.store

/-- The `setToken` method: assigns the in-memory field and writes the same
string to `localStorage` under `auth_token`. -/
def ClientState.setToken (st : ClientState) (t : String) : ClientState :=
  { st with token := some t, store := some t }

/-- The `clearToken` method: nulls the in-memory field and removes the
`auth_token` entry from `localStorage`. -/
def ClientState.clearToken (st : ClientState) : ClientState :=
  { st with token := none, store := none }

/-- The `isAuthenticated` method: `!!this.getToken()`. -/
def ClientState.isAuthenticated (st : ClientState) : Bool :=
  strTruthy st.getToken

/-- Re-initialisation of the client on a page reload: the constructor runs
`this.token = localStorage.getItem('auth_token')`, while the persistent
store and the location survive. -/
def ClientState.reload (st : ClientState) : ClientState :=
  { st with token := st.store }

/-- The request interceptor: `const token = this.getToken(); if (token)
config.headers.Authorization = ` followed by the template literal
`Bearer ` + token. Returns the `Authorization` header attached to the
outgoing request, `none` when the truthiness test fails. -/
def ClientState.authHeader (st : ClientState) : Option String :=
  if strTruthy st.getToken then some ("Bearer " ++ st.getToken.getD "") else none

/-! JSON values, as carried in axios response bodies, with the pieces of
JavaScript semantics the handlers rely on: truthiness, property access and
string conversion (template-literal interpolation). -/

/-- JSON/JavaScript values appearing as response bodies and `detail`
payloads. -/
inductive Json where
  | null : Json
  | bool : Bool → Json
  | num : Int → Json
  | str : String → Json
  | arr : List Json → Json
  | obj : List (String × Json) → Json

/-- JavaScript truthiness of a JSON value: `null`, `false`, `0` and `""` are
falsy; every array and object (even empty) is truthy. -/
def Json.truthy : Json → Bool
  | .null => false
  | .bool b => b
  | .num n => n != 0
  | .str s => s != ""
  | .arr _ => true
  | .obj _ => true

/-- Optional-chaining property access `v?.k`: a field lookup on an object,
`undefined` (modelled `none`) on every other value. -/
def Json.getField (j : Json) (k : String) : Option Json :=
  match j with
  | .obj fields => fields.lookup k
  | _ => none

mutual

/-- JavaScript `String(v)` conversion, as performed by template-literal
interpolation: strings pass through, arrays join their elements with `,`
(with `null` elements becoming the empty string), plain objects become
`[object Object]`. -/
def Json.toJsString : Json → String
  | .null => "null"
  | .bool b => if b then "true" else "false"
  | .num n => toString n
  | .str s => s
  | .arr xs => String.intercalate "," (Json.arrElemStrings xs)
  | .obj _ => "[object Object]"

/-- String conversion of array elements for `Array.prototype.join`: `null`
elements render as the empty string. -/
def Json.arrElemStrings : List Json → List String
  | [] => []
  | Json.null :: rest => "" :: Json.arrElemStrings rest
  | x :: rest => x.toJsString :: Json.arrElemStrings rest

end

/-! The axios response pipeline of `ApiClient`: a dispatched request either
yields an HTTP response or no response at all (transport failure); axios'
default `validateStatus` routes 2xx responses through the fulfilled
interceptor and everything else, wrapped in an error object, through the
rejected interceptor. -/

/-- An HTTP response as seen by the interceptors: status code and decoded
body. -/
structure HttpResponse where
  status : Nat
  data : Json

/-- An axios error object: `response` is present for non-2xx responses and
absent for transport failures; `message` is the error's own message string. -/
structure AxiosError where
  response : Option HttpResponse
  message : String

/-- A toast-notifier invocation: kind and message value as passed to the
notifier (the message need not be a string in JavaScript). -/
structure ToastEvent where
  kind : String
  message : Json

/-- Default axios `validateStatus`: `status >= 200 && status < 300`. -/
def validateStatus (status : Nat) : Bool :=
  200 ≤ status && status < 300

/-- The fulfilled response interceptor of `ApiClient`:
`(response) => response`, touching no state and emitting no toasts. -/
def onFulfilled (st : ClientState) (r : HttpResponse) :
    ClientState × List ToastEvent × HttpResponse :=
  (st, [], r)

/-- The rejected response interceptor of `ApiClient`: when
`error.response?.status === 401` it runs `this.clearToken()` and sets
`window.location.href = '/login'`; in every case it returns
`Promise.reject(error)` with the error unchanged. No toast is emitted on
any path. -/
def onRejected (st : ClientState) (e : AxiosError) :
    ClientState × List ToastEvent × AxiosError :=
  if (e.response.map (·.status)) = some 401 then
    ({ st.clearToken with location := "/login" }, [], e)
  else
    (st, [], e)

/-- One round trip through the axios pipeline: a received response with a
2xx status resolves through the fulfilled interceptor with the decoded
body (resource methods return `response.data`); any other response is
wrapped in an `AxiosError` carrying it and routed through the rejected
interceptor, as is a transport failure (no response, message
`Network Error`). -/
def dispatchResponse (st : ClientState) (outcome : Option HttpResponse) :
    ClientState × List ToastEvent × Except AxiosError Json :=
  match outcome with
  | some r =>
    if validateStatus r.status then
      let (st', ts, r') := onFulfilled st r
      (st', ts, .ok r'.data)
    else
      let e : AxiosError :=
        { response := some r
          message := "Request failed with status code " ++ toString r.status }
      let (st', ts, e') := onRejected st e
      (st', ts, .error e')
  | none =>
    let e : AxiosError := { response := none, message := "Network Error" }
    let (st', ts, e') := onRejected st e
    (st', ts, .error e')

/-- A failed call as the spec's taxonomy delimits it: either no response at
all (transport failure) or a response whose status falls outside axios'
default 2xx acceptance window. -/
def isFailedOutcome : Option HttpResponse → Bool
  | none => true
  | some r => !validateStatus r.status

/-! The `App.handleFormError` handler from the main application module:
`const message = error.response?.data?.detail || error.message || 'An error
occurred'; Toast.show({ type: 'error', message });`. -/

/-- Message value selected by `App.handleFormError`: the optional chain
`error.response?.data?.detail`, or (when that is absent or falsy)
`error.message`, or `An error occurred`; each step uses JavaScript
truthiness of the value. -/
def handleFormErrorMessage (e : AxiosError) : Json :=
  let detail : Option Json := e.response.bind (fun r => r.data.getField "detail")
  let fallback : Json :=
    if e.message != "" then .str e.message else .str "An error occurred"
  match detail with
  | some d => if d.truthy then d else fallback
  | none => fallback

/-- Toast emitted by `App.handleFormError`: exactly one invocation, of type
`error`, carrying the selected message value. -/
def handleFormErrorToast (e : AxiosError) : ToastEvent :=
  { kind := "error", message := handleFormErrorMessage e }

/-- A 422 validation failure as axios hands it to `handleFormError`: the
response body is an object whose `detail` field carries the server-supplied
payload. -/
def formError422 (detail : Json) (msg : String) : AxiosError :=
  { response := some { status := 422, data := Json.obj [("detail", detail)] }
    message := msg }

/-- The list-shaped `detail` payload from the spec's 422 example: one field
violation with location `["body", "title"]` and message `required`. -/
def sampleViolationDetail : Json :=
  .arr [.obj [("location", .arr [.str "body", .str "title"]),
              ("message", .str "required")]]

/-! JavaScript `parseInt` (no radix argument) and the tag-id parsing done by
`App.handleCreateTask` / `App.handleCreateNote`:
`data.tag_ids ? data.tag_ids.split(',').map((id) => parseInt(id.trim())) :
undefined`. `NaN` results are modelled as `none`. -/

/-- Value of a hexadecimal digit character. -/
def hexVal (c : Char) : Nat :=
  if c.isDigit then c.toNat - 48
  else if 'a' ≤ c ∧ c ≤ 'f' then c.toNat - 97 + 10
  else c.toNat - 65 + 10

/-- Hexadecimal digit test for `parseInt` with a `0x` prefix. -/
def isHexDigitChar (c : Char) : Bool :=
  c.isDigit || ('a' ≤ c && c ≤ 'f') || ('A' ≤ c && c ≤ 'F')

/-- Accumulates the longest leading run of digits of the given base,
returning `none` (JavaScript `NaN`) when that run is empty. -/
def leadingDigitsVal (base : Nat) (digitOk : Char → Bool) (val : Char → Nat)
    (cs : List Char) : Option Nat :=
  let ds := cs.takeWhile digitOk
  if ds.isEmpty then none else some (ds.foldl (fun a c => a * base + val c) 0)

/-- JavaScript `parseInt(s)` with no radix argument: skip leading
whitespace, read an optional sign, then either a `0x`/`0X`-prefixed
hexadecimal literal or the longest leading run of decimal digits; trailing
garbage is ignored and an empty digit run gives `NaN` (`none`). -/
def jsParseInt (s : String) : Option Int :=
  let cs := s.toList.dropWhile (fun c => c.isWhitespace)
  let (sign, cs) : Int × List Char :=
    match cs with
    | '-' :: rest => (-1, rest)
    | '+' :: rest => (1, rest)
    | _ => (1, cs)
  match cs with
  | '0' :: x :: rest =>
    if x = 'x' ∨ x = 'X' then
      (leadingDigitsVal 16 isHexDigitChar hexVal rest).map (fun n => sign * n)
    else
      (leadingDigitsVal 10 Char.isDigit (fun c => c.toNat - 48) cs).map
        (fun n => sign * n)
  | _ =>
    (leadingDigitsVal 10 Char.isDigit (fun c => c.toNat - 48) cs).map
      (fun n => sign * n)

/-- JavaScript `String.prototype.split` on a single separator character,
at the character-list level: splitting never drops empty tokens and an
empty input yields one empty token. -/
def splitOnChar (c : Char) : List Char → List (List Char)
  | [] => [[]]
  | d :: rest =>
    let r := splitOnChar c rest
    if d = c then [] :: r
    else
      match r with
      | [] => [[d]]
      | h :: t => (d :: h) :: t

/-- JavaScript `String.prototype.trim` at the character-list level: strips
leading and trailing whitespace. -/
def trimChars (cs : List Char) : List Char :=
  ((cs.dropWhile Char.isWhitespace).reverse.dropWhile Char.isWhitespace).reverse

/-- The `tag_ids` payload built by `App.handleCreateTask` and
`App.handleCreateNote` from the free-text form field: a falsy (empty)
string yields `undefined`; otherwise the string is split on `,` and each
token is mapped to `parseInt` of its trimmed text. No deduplication and no
filtering happens; a non-numeric token stays in the list as `NaN`
(`none`). -/
def parseTagIds (s : String) : Option (List (Option Int)) :=
  if s != "" then
    some ((splitOnChar ',' s.toList).map
      (fun t => jsParseInt (String.mk (trimChars t))))
  else none

/-! The `debounce` utility from `utils.ts`: each call clears the pending
timeout and schedules `func(...args)` after `delay` milliseconds. The
trigger history is a list of (time, argument) pairs in arrival order; a
scheduled callback fires unless a later trigger arrives strictly before
its deadline. -/

/-- Invocations of the debounced function produced by a trigger history:
the callback scheduled by a trigger at time `t` fires (with that trigger's
argument) exactly when no further trigger arrives before `t + delay`; the
final trigger's callback always fires. -/
def debounceFired {α : Type} (delay : Nat) : List (Nat × α) → List α
  | [] => []
  | [(_, a)] => [a]
  | (t₁, a₁) :: (t₂, a₂) :: rest =>
    (if t₁ + delay ≤ t₂ then [a₁] else []) ++ debounceFired delay ((t₂, a₂) :: rest)

/-- Predicate: every consecutive pair of triggers is separated by strictly
less than `delay` milliseconds (all triggers fall inside one debounce
window). -/
def gapsLt {α : Type} (delay : Nat) : List (Nat × α) → Bool
  | (t₁, _) :: (t₂, a₂) :: rest =>
    decide (t₂ < t₁ + delay) && gapsLt delay ((t₂, a₂) :: rest)
  | _ => true

/-! The `storage` wrapper from `utils.ts`: `localStorage` access guarded by
`try`/`catch`, values serialised with `JSON.stringify` and revived with
`JSON.parse`. The browser storage is modelled as a list of key/value string
entries plus a `failing` flag; while the flag is set every raw operation
throws (disabled storage, quota exceeded). -/

/-- Browser `localStorage`: raw string entries keyed by name, plus a flag
modelling an unavailable or throwing storage backend. -/
structure BrowserStorage where
  entries : List (String × String)
  failing : Bool

/-- Raw `localStorage.getItem`: throws while the backend is failing,
otherwise returns the stored string or `null`. -/
def rawGetItem (st : BrowserStorage) (k : String) : Except Unit (Option String) :=
  if st.failing then .error () else .ok (st.entries.lookup k)

/-- Replaces the value under a key, appending when absent. -/
def setEntry (entries : List (String × String)) (k v : String) :
    List (String × String) :=
  match entries with
  | [] => [(k, v)]
  | (k', v') :: rest =>
    if k' = k then (k, v) :: rest else (k', v') :: setEntry rest k v

/-- Raw `localStorage.setItem`: throws while the backend is failing,
otherwise stores the string under the key. -/
def rawSetItem (st : BrowserStorage) (k v : String) : Except Unit BrowserStorage :=
  if st.failing then .error ()
  else .ok { st with entries := setEntry st.entries k v }

/-- Raw `localStorage.removeItem`: throws while the backend is failing,
otherwise drops every entry under the key. -/
def rawRemoveItem (st : BrowserStorage) (k : String) : Except Unit BrowserStorage :=
  if st.failing then .error ()
  else .ok { st with entries := st.entries.filter (fun e => e.1 ≠ k) }

mutual

/-- JavaScript `JSON.stringify` on the JSON values of this model (none of
which contain characters needing escaping in this development). -/
def jsonStringify : Json → String
  | .null => "null"
  | .bool b => if b then "true" else "false"
  | .num n => toString n
  | .str s => "\"" ++ s ++ "\""
  | .arr xs => "[" ++ String.intercalate "," (jsonStringifyList xs) ++ "]"
  | .obj fields => "\x7b" ++ String.intercalate "," (jsonStringifyFields fields) ++ "\x7d"

/-- Serialisation of array elements. -/
def jsonStringifyList : List Json → List String
  | [] => []
  | x :: rest => jsonStringify x :: jsonStringifyList rest

/-- Serialisation of object fields. -/
def jsonStringifyFields : List (String × Json) → List String
  | [] => []
  | (k, v) :: rest => ("\"" ++ k ++ "\":" ++ jsonStringify v) :: jsonStringifyFields rest

end

/-- Conservative model of the `JSON.parse` builtin on the scalar fragment
this development evaluates it on (`null`, booleans, unsigned integers,
simple quoted strings); any other input throws. The theorems below never
depend on the behaviour outside this fragment: the `storage` facts are
about the failing backend, where `JSON.parse` is not reached. -/
def jsonParse (s : String) : Except Unit Json :=
  if s = "null" then .ok .null
  else if s = "true" then .ok (.bool true)
  else if s = "false" then .ok (.bool false)
  else if s ≠ "" ∧ s.toList.all Char.isDigit then
    .ok (.num (s.toList.foldl (fun a c => a * 10 + (c.toNat - 48)) 0 : Nat))
  else if 2 ≤ s.length ∧ s.front = '"' ∧ s.back = '"' ∧
      ((s.drop 1).dropRight 1).toList.all (fun c => c ≠ '"' ∧ c ≠ '\\') then
    .ok (.str ((s.drop 1).dropRight 1))
  else .error ()

/-- The `storage.get` operation: inside `try`, read the raw item; a falsy
item (absent key or empty string) yields the supplied default, otherwise
the item is `JSON.parse`d; any exception (storage or parse) is caught and
the default returned. -/
def storageGet (st : BrowserStorage) (k : String) (default : Json) : Json :=
  match rawGetItem st k with
  | .error _ => default
  | .ok item =>
    if strTruthy item then
      match jsonParse (item.getD "") with
      | .ok v => v
      | .error _ => default
    else default

/-- The `storage.set` operation: inside `try`, store `JSON.stringify` of the
value; an exception is caught (logged) and the storage state is left as it
was. -/
def storageSet (st : BrowserStorage) (k : String) (v : Json) : BrowserStorage :=
  match rawSetItem st k (jsonStringify v) with
  | .ok st' => st'
  | .error _ => st

/-- The `storage.remove` operation: inside `try`, remove the key; an
exception is caught (logged) and the storage state is left as it was. -/
def storageRemove (st : BrowserStorage) (k : String) : BrowserStorage :=
  match rawRemoveItem st k with
  | .ok st' => st'
  | .error _ => st

/-! Theorems. Each claim of the specification is settled against the
embedding above. -/

/-- C1 (counterexample): for a response with status 401 the response
interceptor of `ApiClient` emits zero notifications, not exactly one — the
claim that exactly one notification of kind `error` fires is false. -/
theorem unauthorized_single_toast_cex :
    (dispatchResponse ⟨some "t", some "t", "/tasks"⟩
      (some ⟨401, Json.str "session expired"⟩)).2.1.length ≠ 1 := by
  decide

/-- C1 (amended): for every response with status 401, regardless of body
content and prior client state, the response interceptor emits zero
notifications, clears the stored credential from memory and from
persistent storage, sets the navigation target to the login entry point
`/login`, and re-raises the classified error to the caller. -/
theorem unauthorized_response_behaviour (st : ClientState) (body : Json) :
    (dispatchResponse st (some ⟨401, body⟩)).2.1 = [] ∧
    (dispatchResponse st (some ⟨401, body⟩)).1.token = none ∧
    (dispatchResponse st (some ⟨401, body⟩)).1.store = none ∧
    (dispatchResponse st (some ⟨401, body⟩)).1.location = "/login" ∧
    (dispatchResponse st (some ⟨401, body⟩)).2.2 =
      .error { response := some ⟨401, body⟩
               message := "Request failed with status code 401" } := by
  have hmsg : "Request failed with status code " ++ toString (401 : Nat) =
      "Request failed with status code 401" := by decide
  refine ⟨rfl, rfl, rfl, rfl, ?_⟩
  rw [← hmsg]
  rfl

/-- C2 (counterexample): a failed call with status 500 produces zero Toast
Notifier invocations from the HTTP client, not exactly one — the claimed
per-failure notification (and the 401/403/422/5xx priority chain choosing
it) is absent from the code. -/
theorem failed_call_exactly_one_toast_cex :
    (dispatchResponse ⟨some "t", some "t", "/tasks"⟩
      (some ⟨500, Json.null⟩)).2.1.length ≠ 1 := by
  decide

/-- C2 (amended): for every failed call (any non-2xx response or transport
failure) the HTTP client emits zero Toast Notifier invocations and
re-raises the error to the caller; the only status-dependent handling is
the 401 credential-clearing redirect. -/
theorem failed_call_zero_toasts_reraise (st : ClientState)
    (outcome : Option HttpResponse) (h : isFailedOutcome outcome = true) :
    (dispatchResponse st outcome).2.1 = [] ∧
    ∃ e, (dispatchResponse st outcome).2.2 = Except.error e := by
  cases outcome with
  | none =>
    exact ⟨by simp [dispatchResponse, onRejected], _, rfl⟩
  | some r =>
    have hv : validateStatus r.status = false := by
      simpa [isFailedOutcome] using h
    constructor
    · simp only [dispatchResponse, hv, Bool.false_eq_true, if_false, onRejected]
      split <;> rfl
    · simp only [dispatchResponse, hv, Bool.false_eq_true, if_false, onRejected]
      split <;> exact ⟨_, rfl⟩

/-- C2 (witness): the amended statement evaluated at a concrete 500
response. -/
theorem failed_call_zero_toasts_reraise_witness :
    isFailedOutcome (some ⟨500, Json.null⟩) = true ∧
    ((dispatchResponse ⟨some "t", some "t", "/tasks"⟩
        (some ⟨500, Json.null⟩)).2.1 = [] ∧
      ∃ e, (dispatchResponse ⟨some "t", some "t", "/tasks"⟩
        (some ⟨500, Json.null⟩)).2.2 = Except.error e) :=
  ⟨by decide, failed_call_zero_toasts_reraise _ _ (by decide)⟩

/-- C3 (counterexample): a transport failure (no response received)
produces zero notifications from the HTTP client, not exactly one
`network error` notification. -/
theorem transport_failure_single_toast_cex :
    (dispatchResponse ⟨some "t", some "t", "/tasks"⟩ none).2.1.length ≠ 1 := by
  decide

/-- C3 (amended): for every request completing with no response received,
the HTTP client emits zero notifications, leaves the stored credential
unchanged (no credential mutation, in memory or in persistent storage),
and re-raises a transport error to the caller. -/
theorem transport_failure_behaviour (st : ClientState) :
    (dispatchResponse st none).2.1 = [] ∧
    (dispatchResponse st none).1.token = st.token ∧
    (dispatchResponse st none).1.store = st.store ∧
    (dispatchResponse st none).2.2 =
      .error { response := none, message := "Network Error" } := by
  simp [dispatchResponse, onRejected]

/-- C4 (counterexample): for a 422 response whose `detail` is the list
`[«location [body, title], message required»]`, the notified message
renders as `[object Object]`, not as the joined string
`body.title: required`. -/
theorem validation_detail_join_cex :
    (handleFormErrorToast (formError422 sampleViolationDetail
      "Request failed with status code 422")).message.toJsString ≠
      "body.title: required" := by
  decide

/-- C4 (amended): `handleFormError` notifies the `detail` payload as-is
with kind `error`: a list-shaped detail is passed through without being
joined as `location: message` (its template-literal rendering is
`[object Object]`), while a non-empty string-shaped detail is notified
verbatim. -/
theorem validation_detail_passthrough (msg s : String) (hs : s ≠ "") :
    handleFormErrorMessage (formError422 sampleViolationDetail msg) =
      sampleViolationDetail ∧
    (handleFormErrorToast (formError422 sampleViolationDetail msg)).message.toJsString =
      "[object Object]" ∧
    handleFormErrorMessage (formError422 (.str s) msg) = .str s ∧
    (handleFormErrorToast (formError422 (.str s) msg)).kind = "error" := by
  refine ⟨rfl, rfl, ?_, rfl⟩
  simp [handleFormErrorMessage, formError422, Json.getField, Json.truthy, hs]

/-- C4 (witness): the amended statement evaluated at a concrete non-empty
string detail. -/
theorem validation_detail_passthrough_witness :
    ("Title must not be empty" : String) ≠ "" ∧
    (handleFormErrorMessage (formError422 (.str "Title must not be empty")
        "Request failed with status code 422") = .str "Title must not be empty" ∧
      (handleFormErrorToast (formError422 (.str "Title must not be empty")
        "Request failed with status code 422")).kind = "error") :=
  ⟨by decide,
    (validation_detail_passthrough "Request failed with status code 422"
      "Title must not be empty" (by decide)).2.2⟩

/-- C5 (counterexample): the tag-id parser applied to `1, 2,2,x` keeps the
duplicate `2` and keeps the non-numeric token as `NaN` (`none`): the result
has four entries, not the two-element deduplicated set claimed. -/
theorem tag_ids_dedup_discard_cex :
    parseTagIds "1, 2,2,x" = some [some 1, some 2, some 2, none] ∧
    ((parseTagIds "1, 2,2,x").getD []).length ≠ 2 ∧
    ((parseTagIds "1, 2,2,x").getD []).contains none = true := by
  refine ⟨by decide, by decide, by decide⟩

/-- C5 (amended): the client maps each comma-separated token of the
`tag_ids` field to JavaScript `parseInt` of its trimmed text, with no
deduplication and no discarding — `1, 2,2,x` yields the list
`[1, 2, 2, NaN]` — and an empty field yields no `tag_ids` payload at
all. -/
theorem tag_ids_parse_exact :
    parseTagIds "1, 2,2,x" = some [some 1, some 2, some 2, none] ∧
    parseTagIds "" = none := by
  refine ⟨by decide, by decide⟩

/-- C6 (counterexample): for the token `""` the claimed round trip fails:
after `setToken("")` and a reload, `isAuthenticated()` is `false`, because
the empty string is falsy at every truthiness test in `getToken` and the
request interceptor. -/
theorem credential_roundtrip_empty_cex :
    (ClientState.reload (ClientState.setToken ⟨none, none, "/login"⟩ "")).isAuthenticated
      = false := by
  decide

/-- C6 (amended): for every non-empty token string `t`, `setToken t`
followed by a page reload (re-initialisation of the in-memory token from
persistent storage) leaves `isAuthenticated()` true and makes the request
interceptor attach `Bearer t` as the `Authorization` header of the next
outgoing request. -/
theorem credential_roundtrip_nonempty (st : ClientState) (t : String)
    (ht : t ≠ "") :
    ((st.setToken t).reload).isAuthenticated = true ∧
    ((st.setToken t).reload).authHeader = some ("Bearer " ++ t) := by
  constructor
  · simp [ClientState.isAuthenticated, ClientState.reload, ClientState.setToken,
      ClientState.getToken, jsOr, strTruthy, ht]
  · simp [ClientState.authHeader, ClientState.reload, ClientState.setToken,
      ClientState.getToken, jsOr, strTruthy, ht]

/-- C6 (witness): the amended statement evaluated at the spec's token
`abc`. -/
theorem credential_roundtrip_nonempty_witness :
    ("abc" : String) ≠ "" ∧
    (((ClientState.setToken ⟨none, none, "/login"⟩ "abc").reload).isAuthenticated = true ∧
      ((ClientState.setToken ⟨none, none, "/login"⟩ "abc").reload).authHeader =
        some ("Bearer " ++ "abc")) :=
  ⟨by decide, credential_roundtrip_nonempty ⟨none, none, "/login"⟩ "abc" (by decide)⟩

/-- C7: for every non-empty trigger history whose consecutive gaps are all
strictly below the debounce delay, exactly one dispatch of the debounced
function occurs, carrying the argument of the last trigger; every earlier
pending dispatch is cancelled by the trigger that follows it. -/
theorem debounce_single_dispatch {α : Type} (delay : Nat)
    (evs : List (Nat × α)) (h : gapsLt delay evs = true) (hne : evs ≠ []) :
    debounceFired delay evs = [(evs.getLast hne).2] := by
  induction evs with
  | nil => exact absurd rfl hne
  | cons hd tl ih =>
    obtain ⟨t₁, a₁⟩ := hd
    cases tl with
    | nil => simp [debounceFired]
    | cons hd₂ tl₂ =>
      obtain ⟨t₂, a₂⟩ := hd₂
      have h' : t₂ < t₁ + delay ∧ gapsLt delay ((t₂, a₂) :: tl₂) = true := by
        simpa [gapsLt] using h
      have hgap := h'.1
      have hrec := ih h'.2 (List.cons_ne_nil _ _)
      rw [List.getLast_cons (List.cons_ne_nil _ _)]
      simpa [debounceFired, Nat.not_le.mpr hgap] using hrec

/-- C7 (witness): the rapid-fire history `a`, `ab`, `abc` at 0 ms, 100 ms,
200 ms under the 300 ms debounce delay issues exactly one call, with the
final query `abc`. -/
theorem debounce_single_dispatch_witness :
    gapsLt 300 [(0, "a"), (100, "ab"), (200, "abc")] = true ∧
    debounceFired 300 [(0, "a"), (100, "ab"), (200, "abc")] = ["abc"] :=
  ⟨by decide,
    by
      simpa using
        debounce_single_dispatch 300 [(0, "a"), (100, "ab"), (200, "abc")]
          (by decide) (by decide)⟩

/-- C8: every response with a status accepted by the default 2xx window
resolves through the pipeline with the decoded body returned unchanged,
zero notifications, and no state change of any kind. -/
theorem success_response_passthrough (st : ClientState) (r : HttpResponse)
    (h : validateStatus r.status = true) :
    dispatchResponse st (some r) = (st, [], .ok r.data) := by
  simp [dispatchResponse, h, onFulfilled]

/-- C8 (witness): a concrete 200 response with a string body passes through
untouched. -/
theorem success_response_passthrough_witness :
    validateStatus 200 = true ∧
    dispatchResponse ⟨some "t", some "t", "/tasks"⟩
        (some ⟨200, Json.str "payload"⟩) =
      (⟨some "t", some "t", "/tasks"⟩, [], .ok (Json.str "payload")) :=
  ⟨by decide, success_response_passthrough _ _ (by decide)⟩

/-- C9: while the underlying browser storage is unavailable (every raw
operation throws), `storage.get` returns the supplied default value and
`storage.set` / `storage.remove` leave the storage state untouched; no
operation propagates the exception — each is total on every state. -/
theorem storage_failure_tolerance (st : BrowserStorage) (k : String)
    (d v : Json) (h : st.failing = true) :
    storageGet st k d = d ∧ storageSet st k v = st ∧ storageRemove st k = st := by
  refine ⟨?_, ?_, ?_⟩ <;>
    simp [storageGet, storageSet, storageRemove, rawGetItem, rawSetItem,
      rawRemoveItem, h]

/-- C9 (witness): a concrete failing storage holding one entry: `get`
yields the default, `set` and `remove` change nothing. -/
theorem storage_failure_tolerance_witness :
    (BrowserStorage.mk [("auth_token", "\"abc\"")] true).failing = true ∧
    (storageGet ⟨[("auth_token", "\"abc\"")], true⟩ "auth_token" Json.null =
        Json.null ∧
      storageSet ⟨[("auth_token", "\"abc\"")], true⟩ "auth_token" (Json.str "t") =
        ⟨[("auth_token", "\"abc\"")], true⟩ ∧
      storageRemove ⟨[("auth_token", "\"abc\"")], true⟩ "auth_token" =
        ⟨[("auth_token", "\"abc\"")], true⟩) :=
  ⟨rfl, storage_failure_tolerance ⟨[("auth_token", "\"abc\"")], true⟩
    "auth_token" Json.null (Json.str "t") rfl⟩

/-- C10: `setToken("")` starting from empty persistent storage leaves
`isAuthenticated()` false and the next outgoing request without an
`Authorization` header; when the in-memory token is the empty string,
`getToken` falls back to the persistent store; and in general the client
counts as authenticated exactly when `getToken` produces a non-empty
string. -/
theorem empty_token_treated_absent (s : Option String) (l l₂ : String) :
    (ClientState.setToken ⟨none, none, l⟩ "").isAuthenticated = false ∧
    (ClientState.setToken ⟨none, none, l⟩ "").authHeader = none ∧
    ClientState.getToken ⟨some "", s, l₂⟩ = s ∧
    ∀ st : ClientState, st.isAuthenticated = (st.getToken.getD "" != "") := by
  refine ⟨rfl, rfl, ?_, ?_⟩
  · simp [ClientState.getToken, jsOr, strTruthy]
  · intro st
    rcases hg : st.getToken with _ | t <;>
      simp [ClientState.isAuthenticated, hg, strTruthy]

end Managment
